import Mathlib

/-!
Shallow embedding of the Marina REST backend's relationship-consistency and
pagination core (controllers/boat.js, controllers/load.js, the Boat model and
the Load model), together with theorems settling the specification claims.

JavaScript values appearing in request bodies, query strings and stored
entities are modelled by `JsVal`; the JavaScript exceptions this code can
raise (TypeError on property access of undefined or null, ReferenceError from
a temporal-dead-zone read of a `const`) are modelled by `JsErr`.  The Google
Datastore is modelled as two key-indexed partial maps, one per kind (Boat and
Load).  Route ids are the decimal numerals of the numeric Datastore keys, so
`parseInt(id, 10)` is the identity on the ids quantified over, and the strict
string equality the controllers use on ids coincides with equality of the
numeric keys.  Datastore-assigned keys are positive, so a stored
`current_boat` value is JavaScript-falsy exactly when it is null, which the
embedding renders as `Option Nat` with `none` for null.  The unawaited
`datastore.get(...).then(...)` read-modify-write blocks in the models are run
to completion in program order, matching the single-request sequential
semantics the specification assumes.
-/

namespace Marina

/-- JavaScript runtime errors reachable in this code base. -/
inductive JsErr where
  | typeError
  | referenceError
deriving DecidableEq, Repr

/-- Decidable equality of handler results, used to evaluate the concrete
counterexamples by `decide`. -/
instance {ε α : Type} [DecidableEq ε] [DecidableEq α] : DecidableEq (Except ε α) :=
  fun a b =>
    match a, b with
    | .ok x, .ok y =>
      if h : x = y then .isTrue (h ▸ rfl)
      else .isFalse (fun hc => h (Except.ok.inj hc))
    | .error x, .error y =>
      if h : x = y then .isTrue (h ▸ rfl)
      else .isFalse (fun hc => h (Except.error.inj hc))
    | .ok _, .error _ => .isFalse (fun hc => Except.noConfusion hc)
    | .error _, .ok _ => .isFalse (fun hc => Except.noConfusion hc)

/-- JavaScript primitive values as they occur in request bodies, query
strings and stored entity fields.  `nan` stands for the number NaN. -/
inductive JsVal where
  | undefined
  | null
  | nan
  | bool (b : Bool)
  | num (n : Int)
  | str (s : String)
deriving DecidableEq, Repr

/-- JavaScript truthiness: undefined, null, NaN, false, 0 and the empty
string are falsy; every other primitive in scope is truthy. -/
def JsVal.truthy : JsVal → Bool
  | .undefined => false
  | .null => false
  | .nan => false
  | .bool b => b
  | .num n => n != 0
  | .str s => s != ""

/-- ToString conversion of a primitive, as used by template literals and by
`String(x)`. -/
def JsVal.toStr : JsVal → String
  | .undefined => "undefined"
  | .null => "null"
  | .nan => "NaN"
  | .bool b => if b then "true" else "false"
  | .num n => toString n
  | .str s => s

/-- Whitespace for the purposes of ToNumber trimming. -/
def isWs (c : Char) : Bool :=
  c == ' ' || c == '\t' || c == '\n' || c == '\r'

/-- Trim leading and trailing whitespace from a character list. -/
def trimWs (l : List Char) : List Char :=
  ((l.dropWhile isWs).reverse.dropWhile isWs).reverse

/-- Read a nonempty all-digit character list as a natural number. -/
def decDigits : List Char → Nat → Option Nat
  | [], acc => some acc
  | c :: rest, acc =>
    if c.isDigit then decDigits rest (acc * 10 + (c.toNat - 48)) else none

/-- ToNumber on a string, with `none` standing for NaN, modelled on the
optionally signed decimal numerals that actually flow through this code;
the trimmed empty string is 0. -/
def strToNumOpt (s : String) : Option Int :=
  match trimWs s.data with
  | [] => some 0
  | '-' :: rest =>
    if rest.isEmpty then none
    else (decDigits rest 0).map (fun n => -(n : Int))
  | '+' :: rest =>
    if rest.isEmpty then none
    else (decDigits rest 0).map (fun n => (n : Int))
  | l => (decDigits l 0).map (fun n => (n : Int))

/-- ToNumber conversion, with `none` standing for NaN. -/
def JsVal.toNum : JsVal → Option Int
  | .undefined => none
  | .nan => none
  | .null => some 0
  | .bool b => some (if b then 1 else 0)
  | .num n => some n
  | .str s => strToNumOpt s

/-- The JavaScript binary `+` operator restricted to the primitives in
scope: if either operand is a string the result is string concatenation of
the ToString images, otherwise numeric addition with NaN absorbing. -/
def jsAdd (a b : JsVal) : JsVal :=
  match a, b with
  | .str s, _ => .str (s ++ b.toStr)
  | _, .str s => .str (a.toStr ++ s)
  | _, _ =>
    match a.toNum, b.toNum with
    | some x, some y => .num (x + y)
    | _, _ => .nan

/-- The JavaScript `>` comparison as used here, always against a numeric
literal on the right: numeric comparison after ToNumber, false when either
side is NaN. -/
def jsGT (a b : JsVal) : Bool :=
  match a.toNum, b.toNum with
  | some x, some y => y < x
  | _, _ => false

/-- Property access `x.length`: throws TypeError on undefined and null,
yields the string length on strings, and undefined on the other
primitives. -/
def jsLength : JsVal → Except JsErr JsVal
  | .undefined => .error .typeError
  | .null => .error .typeError
  | .str s => .ok (.num s.length)
  | _ => .ok .undefined

/-- Test of the validator regular expression `^[a-zA-Z0-9 ]*$` on a
string. -/
def patternOk (s : String) : Bool :=
  s.data.all (fun c => c.isAlphanum || c == ' ')

/-- `RegExp("^[a-zA-Z0-9 ]*$").test(x)`: RegExp.test applies ToString to its
argument before matching. -/
def jsPatternTest (v : JsVal) : Bool :=
  patternOk v.toStr

/-- HTTP methods recognised by the validators (`req.method`). -/
inductive HttpVerb where
  | POST
  | PUT
  | PATCH
  | GET
  | DELETE
deriving DecidableEq, Repr

/-- One entry of a boat's denormalized `loads` array: `{id, self}`. -/
structure LoadEntry where
  id : Nat
  self : String
deriving DecidableEq, Repr

/-- Stored fields of a Boat entity. -/
structure BoatData where
  name : JsVal
  type : JsVal
  length : JsVal
  public : JsVal
  owner : JsVal
  loads : List LoadEntry
deriving DecidableEq, Repr

/-- Stored fields of a Load entity.  `current_boat` is null (`none`) or the
id of a boat. -/
structure LoadData where
  weight : JsVal
  content : JsVal
  delivery_date : JsVal
  current_boat : Option Nat
deriving DecidableEq, Repr

/-- The Datastore: one keyed partial map per kind, plus the next key the
store will assign to a new Boat entity. -/
structure Store where
  boats : Nat → Option BoatData
  loads : Nat → Option LoadData
  nextBoatId : Nat

/-- `datastore.save` on an existing-or-fresh Boat key. -/
def Store.putBoat (s : Store) (k : Nat) (v : BoatData) : Store :=
  { s with boats := fun i => if i = k then some v else s.boats i }

/-- `datastore.save` on an existing-or-fresh Load key. -/
def Store.putLoad (s : Store) (k : Nat) (v : LoadData) : Store :=
  { s with loads := fun i => if i = k then some v else s.loads i }

/-- `datastore.delete` on a Boat key. -/
def Store.delBoat (s : Store) (k : Nat) : Store :=
  { s with boats := fun i => if i = k then none else s.boats i }

/-! ## Load model (models/load) -/

/-- Load model `put_load(id, weight, content, delivery_date, boat_id)`.  Its
first statement, `datastore.key([load, parseInt(id, 10)])`, reads the local
constant `load` inside that constant's own initializer (the kind constant
`LOAD` was evidently meant), so by the temporal-dead-zone rule every call
throws a ReferenceError before touching the store. -/
def put_load_model (_id : Nat) (_weight _content _delivery_date _boat_id : JsVal)
    (_s : Store) : Except JsErr (Store × Nat) :=
  .error .referenceError

/-- Load model `add_load_to_boat(boatID, loadID)`: reads the load and, only
when its `current_boat` is falsy (null), saves it back with `current_boat =
boatID`; when the load is already on a boat nothing is written.  Reading
`data[0].current_boat` on a missing load throws a TypeError. -/
def add_load_to_boat (boatID loadID : Nat) (s : Store) : Except JsErr Store :=
  match s.loads loadID with
  | none => .error .typeError
  | some ld =>
    if ld.current_boat = none then
      .ok (s.putLoad loadID { ld with current_boat := some boatID })
    else
      .ok s

/-- Load model `remove_load_from_boat(loadID)`: if a load with this key
exists, save it back with `current_boat = null`; otherwise do nothing. -/
def remove_load_from_boat (loadID : Nat) (s : Store) : Store :=
  match s.loads loadID with
  | none => s
  | some ld => s.putLoad loadID { ld with current_boat := none }

/-! ## Boat model (models/boat) -/

/-- Boat model `post_boat(name, type, length, public, owner)`: saves a new
boat with an empty `loads` array under a fresh key and returns that key.
There is no duplicate-name scan anywhere in this function, and the key
object is always returned, never `false`. -/
def post_boat (name ty len pub owner : JsVal) (s : Store) : Store × Option Nat :=
  let key := s.nextBoatId
  let s1 := s.putBoat key
    { name := name, type := ty, length := len, public := pub, owner := owner,
      loads := [] }
  ({ s1 with nextBoatId := key + 1 }, some key)

/-- Boat model `put_boat(id, name, type, length, loads, public, owner)`:
overwrites the boat record under the given key; `owner` passes through
`String(owner)`. -/
def put_boat_model (id : Nat) (name ty len : JsVal) (loads : List LoadEntry)
    (pub owner : JsVal) (s : Store) : Store × Nat :=
  (s.putBoat id
    { name := name, type := ty, length := len, public := pub,
      owner := .str owner.toStr, loads := loads }, id)

/-- Boat model `delete_boat(id)`: reads the boat and, when it exists and its
`loads` array is nonempty, iterates over the entries calling
`loadModel.remove_load_from_boat(id, load.id)` — that function takes a
single parameter, so each iteration receives the boat's id `id` and the
`load.id` argument is dropped; then the boat record is deleted. -/
def delete_boat_model (id : Nat) (s : Store) : Store :=
  let s1 :=
    match s.boats id with
    | some bt =>
      if bt.loads.length > 0 then
        bt.loads.foldl (fun acc _ld => remove_load_from_boat id acc) s
      else s
    | none => s
  s1.delBoat id

/-- Boat model `load_boat(boatID, loadID, req)`: first awaits
`add_load_to_boat`, then reads the boat, pushes `{id: loadID, self:
protocol://host/loads/loadID}` onto its `loads` array and saves the rebuilt
boat.  Pushing onto `data[0].loads` of a missing boat throws a TypeError. -/
def boat_load_boat (boatID loadID : Nat) (protocol host : String) (s : Store) :
    Except JsErr Store :=
  match add_load_to_boat boatID loadID s with
  | .error e => .error e
  | .ok s1 =>
    match s1.boats boatID with
    | none => .error .typeError
    | some bt =>
      let entry : LoadEntry :=
        { id := loadID, self := protocol ++ "://" ++ host ++ "/loads/" ++ toString loadID }
      .ok (s1.putBoat boatID { bt with loads := bt.loads ++ [entry] })

/-- Boat model `unload_boat(boatID, loadID)`: first awaits
`remove_load_from_boat(loadID)`, then reads the boat and, when it exists
(the `loads` array of a stored boat is always an array, and arrays are
truthy), saves it back with the entries whose id equals `loadID` filtered
out. -/
def boat_unload_boat (boatID loadID : Nat) (s : Store) : Store :=
  let s1 := remove_load_from_boat loadID s
  match s1.boats boatID with
  | none => s1
  | some bt =>
    s1.putBoat boatID { bt with loads := bt.loads.filter (fun e => e.id != loadID) }

/-! ## Validators -/

/-- A boat request body as the boat controller reads it: each field of
`req.body` is undefined when absent. -/
structure BoatBody where
  id : JsVal := .undefined
  name : JsVal := .undefined
  type : JsVal := .undefined
  length : JsVal := .undefined
  public : JsVal := .undefined
  owner : JsVal := .undefined
deriving DecidableEq, Repr

/-- Boat controller `validate_request(req)`: presence of the required fields
is tested by truthiness; `name.length` is read after the presence checks
(which on PATCH do not guarantee `name` is present), and the function falls
through returning undefined on verbs other than POST, PUT and PATCH. -/
def boat_validate_request (httpVerb : HttpVerb) (body : BoatBody) :
    Except JsErr JsVal :=
  match httpVerb with
  | .POST | .PUT =>
    if !body.name.truthy || !body.type.truthy || !body.length.truthy
        || !body.owner.truthy || !body.public.truthy then
      .ok (.bool false)
    else
      match jsLength body.name with
      | .error e => .error e
      | .ok nameLen =>
        if jsGT nameLen (.num 25) then .ok (.bool false)
        else if !jsPatternTest body.name || !jsPatternTest body.type then
          .ok (.bool false)
        else if jsGT body.length (.num 1000) then .ok (.bool false)
        else .ok (.bool true)
  | .PATCH =>
    if body.id.truthy then .ok (.bool false)
    else if !body.name.truthy && !body.type.truthy && !body.length.truthy
        && !body.owner.truthy && !body.public.truthy then
      .ok (.bool false)
    else
      match jsLength body.name with
      | .error e => .error e
      | .ok nameLen =>
        if jsGT nameLen (.num 25) then .ok (.bool false)
        else if !jsPatternTest body.name || !jsPatternTest body.type then
          .ok (.bool false)
        else if jsGT body.length (.num 1000) then .ok (.bool false)
        else .ok (.bool true)
  | _ => .ok .undefined

/-- A load request body as the load controller reads it. -/
structure LoadBody where
  id : JsVal := .undefined
  weight : JsVal := .undefined
  content : JsVal := .undefined
  delivery_date : JsVal := .undefined
  current_boat : JsVal := .undefined
deriving DecidableEq, Repr

/-- Load controller `validate_request(req)` (the `!content` disjunct is
written twice in the source, which changes nothing). -/
def load_validate_request (httpVerb : HttpVerb) (body : LoadBody) :
    Except JsErr JsVal :=
  match httpVerb with
  | .POST | .PUT =>
    if !body.weight.truthy || !body.content.truthy || !body.content.truthy
        || !body.delivery_date.truthy || !body.current_boat.truthy then
      .ok (.bool false)
    else if !jsPatternTest body.weight || !jsPatternTest body.content then
      .ok (.bool false)
    else if jsGT body.content (.num 1000) then .ok (.bool false)
    else .ok (.bool true)
  | .PATCH =>
    if body.id.truthy then .ok (.bool false)
    else if !body.weight.truthy && !body.content.truthy && !body.content.truthy
        && !body.delivery_date.truthy && !body.current_boat.truthy then
      .ok (.bool false)
    else if !jsPatternTest body.weight || !jsPatternTest body.content then
      .ok (.bool false)
    else if jsGT body.content (.num 1000) then .ok (.bool false)
    else .ok (.bool true)
  | _ => .ok .undefined

/-! ## Boat controllers (controllers/boat.js)

Each controller is embedded as a function from its request data (auth flags,
negotiated content type, path params, body) and the store to a pair of HTTP
status code and resulting store, inside `Except JsErr` so that a thrown
exception propagates out of the handler instead of producing a response. -/

/-- Controller `create_boat` (POST /boats): token check, content
negotiation, `validate_request`, then `post_boat`; the 403 duplicate-name
branch fires only when `post_boat` returns a falsy value. -/
def create_boat_ctrl (isValid : Bool) (acceptsJson : Bool)
    (contentType : Option String) (body : BoatBody) (s : Store) :
    Except JsErr (Nat × Store) :=
  if isValid then
    if !acceptsJson then .ok (406, s)
    else if contentType ≠ some "application/json" then .ok (415, s)
    else
      match boat_validate_request .POST body with
      | .error e => .error e
      | .ok v =>
        if !v.truthy then .ok (400, s)
        else
          match post_boat body.name body.type body.length body.public body.owner s with
          | (s1, none) => .ok (403, s1)
          | (s1, some _) => .ok (201, s1)
  else .ok (401, s)

/-- Controller `put_boat` (PUT /boats/:boat_id): content negotiation,
`validate_request`, 404 on unknown id, 401 for a non-owner, then the model
`put_boat` with the boat's existing `loads` array, answering 303. -/
def put_boat_ctrl (acceptsJson : Bool) (contentType : Option String)
    (userid : JsVal) (boatId : Nat) (body : BoatBody) (s : Store) :
    Except JsErr (Nat × Store) :=
  if !acceptsJson then .ok (406, s)
  else if contentType ≠ some "application/json" then .ok (415, s)
  else
    match boat_validate_request .PUT body with
    | .error e => .error e
    | .ok v =>
      if !v.truthy then .ok (400, s)
      else
        match s.boats boatId with
        | none => .ok (404, s)
        | some bt =>
          if bt.owner ≠ userid then .ok (401, s)
          else
            .ok (303, (put_boat_model boatId body.name body.type body.length
              bt.loads body.public body.owner s).1)

/-- Controller `patch_boat` (PATCH /boats/:boat_id): content negotiation,
`validate_request` (whose exceptions propagate), 404 on unknown id, merge of
absent body fields from the stored boat, 401 for a non-owner, then the model
`put_boat` with the merged values, answering 200. -/
def patch_boat_ctrl (acceptsJson : Bool) (contentType : Option String)
    (userid : JsVal) (boatId : Nat) (body : BoatBody) (s : Store) :
    Except JsErr (Nat × Store) :=
  if !acceptsJson then .ok (406, s)
  else if contentType ≠ some "application/json" then .ok (415, s)
  else
    match boat_validate_request .PATCH body with
    | .error e => .error e
    | .ok v =>
      if !v.truthy then .ok (400, s)
      else
        match s.boats boatId with
        | none => .ok (404, s)
        | some bt =>
          let nm := if !body.name.truthy then bt.name else body.name
          let ty := if !body.type.truthy then bt.type else body.type
          let ln := if !body.length.truthy then bt.length else body.length
          let pb := if !body.public.truthy then bt.public else body.public
          let ow := if !body.owner.truthy then bt.owner else body.owner
          if bt.owner ≠ userid then .ok (401, s)
          else
            .ok (200, (put_boat_model boatId nm ty ln bt.loads pb ow s).1)

/-- Controller `delete_boat` (DELETE /boats/:boat_id): 415 when any
Content-Type header is sent, 404 on unknown id, 401 for a non-owner, then
the model `delete_boat`, answering 204. -/
def delete_boat_ctrl (contentType : Option String) (userid : JsVal)
    (boatId : Nat) (s : Store) : Nat × Store :=
  if contentType ≠ none then (415, s)
  else
    match s.boats boatId with
    | none => (404, s)
    | some bt =>
      if bt.owner ≠ userid then (401, s)
      else (204, delete_boat_model boatId s)

/-- Controller `load_boat` (PUT /boats/:boat_id/loads/:load_id): 404 when
either entity is missing; 403 when the load's `current_boat` is non-null and
strictly equal to this boat's id; otherwise the model `load_boat` runs and
the controller answers 204. -/
def load_boat_ctrl (boatID loadID : Nat) (protocol host : String) (s : Store) :
    Except JsErr (Nat × Store) :=
  match s.boats boatID with
  | none => .ok (404, s)
  | some _ =>
    match s.loads loadID with
    | none => .ok (404, s)
    | some ld =>
      if ld.current_boat ≠ none ∧ ld.current_boat = some boatID then
        .ok (403, s)
      else
        match boat_load_boat boatID loadID protocol host s with
        | .error e => .error e
        | .ok s1 => .ok (204, s1)

/-- Controller `unload_boat` (DELETE /boats/:boat_id/loads/:load_id): 404
when the boat is missing, or the load is missing, or the load's
`current_boat` differs from this boat's id; otherwise the model
`unload_boat` runs and the controller answers 204. -/
def unload_boat_ctrl (boatID loadID : Nat) (s : Store) : Nat × Store :=
  match s.boats boatID with
  | none => (404, s)
  | some _ =>
    match s.loads loadID with
    | none => (404, s)
    | some ld =>
      if ld.current_boat ≠ some boatID then (404, s)
      else (204, boat_unload_boat boatID loadID s)

/-! ## Collection envelopes (get_all_boats, get_all_loads) -/

/-- The paginated collection envelope `returnObject` that the listing
controllers assemble: items, the echoed `offset` and `limit` query values,
the constant `count`, and the `next` URL. -/
structure PageEnvelope where
  items : List JsVal
  offset : JsVal
  limit : JsVal
  count : Nat
  next : String
deriving DecidableEq, Repr

/-- The `returnObject` built by `get_all_loads` (GET /loads): `count` is the
literal 5 and the offset in `next` is `queryObject.limit+queryObject.offset`
on the raw query values. -/
def get_all_loads_envelope (returnLoads : List JsVal) (protocol host seg : String)
    (limit offset : JsVal) : PageEnvelope :=
  { items := returnLoads, offset := offset, limit := limit, count := 5,
    next := protocol ++ "://" ++ host ++ "/" ++ seg ++ "/?limit=5&offset="
      ++ (jsAdd limit offset).toStr }

/-- The `returnObject` built by `get_all_boats` (GET /boats) — the
authenticated and unauthenticated branches assemble it identically: `count`
is the literal 5 and the offset in `next` is
`queryObject.limit+queryObject.offset` on the raw query values. -/
def get_all_boats_envelope (returnBoats : List JsVal) (protocol host seg : String)
    (limit offset : JsVal) : PageEnvelope :=
  { items := returnBoats, offset := offset, limit := limit, count := 5,
    next := protocol ++ "://" ++ host ++ "/" ++ seg ++ "/?limit=5&offset="
      ++ (jsAdd limit offset).toStr }

/-! ## Load controller `put_load` (controllers/load.js) -/

/-- Controller `put_load` (PUT /loads/:load_id): content negotiation,
`validate_request`, 404 on unknown id, then the model `put_load` (whose
ReferenceError propagates), answering 303 with a self Location. -/
def put_load_ctrl (acceptsJson : Bool) (contentType : Option String)
    (loadId : Nat) (body : LoadBody) (s : Store) : Except JsErr (Nat × Store) :=
  if !acceptsJson then .ok (406, s)
  else if contentType ≠ some "application/json" then .ok (415, s)
  else
    match load_validate_request .PUT body with
    | .error e => .error e
    | .ok v =>
      if !v.truthy then .ok (400, s)
      else
        match s.loads loadId with
        | none => .ok (404, s)
        | some _ =>
          match put_load_model loadId body.weight body.content
              body.delivery_date body.current_boat s with
          | .error e => .error e
          | .ok (s1, _) => .ok (303, s1)

/-! ## Concrete fixtures used by the counterexamples and witnesses -/

/-- Boat 1 of the C1 counterexample store: no loads yet. -/
def c1boat1 : BoatData :=
  { name := .str "Alpha", type := .str "Sloop", length := .num 30,
    public := .bool true, owner := .str "u1", loads := [] }

/-- Boat 2 of the C1 counterexample store: currently carries load 10. -/
def c1boat2 : BoatData :=
  { name := .str "Beta", type := .str "Yawl", length := .num 35,
    public := .bool true, owner := .str "u1",
    loads := [{ id := 10, self := "http://h/loads/10" }] }

/-- Load 10 of the C1 counterexample store: assigned to boat 2. -/
def c1load : LoadData :=
  { weight := .num 100, content := .str "crates",
    delivery_date := .str "2024 01 01", current_boat := some 2 }

/-- C1 counterexample store: boats 1 and 2, load 10 assigned to boat 2. -/
def c1store : Store :=
  { boats := fun k =>
      if k = 1 then some c1boat1 else if k = 2 then some c1boat2 else none,
    loads := fun k => if k = 10 then some c1load else none,
    nextBoatId := 3 }

/-- Boat of the C1 witness store: no loads. -/
def c1wboat : BoatData :=
  { name := .str "Alpha", type := .str "Sloop", length := .num 30,
    public := .bool true, owner := .str "u1", loads := [] }

/-- Load of the C1 witness store: unassigned. -/
def c1wload : LoadData :=
  { weight := .num 100, content := .str "crates",
    delivery_date := .str "2024 01 01", current_boat := none }

/-- C1 witness store: boat 1 and the unassigned load 10. -/
def c1wstore : Store :=
  { boats := fun k => if k = 1 then some c1wboat else none,
    loads := fun k => if k = 10 then some c1wload else none,
    nextBoatId := 2 }

/-- Boat of the C2 store: owned by u1, carrying load 2. -/
def c2boat : BoatData :=
  { name := .str "Orca", type := .str "Sloop", length := .num 40,
    public := .bool true, owner := .str "u1",
    loads := [{ id := 2, self := "http://h/loads/2" }] }

/-- Load 2 of the C2 store: assigned to boat 1. -/
def c2load : LoadData :=
  { weight := .num 100, content := .str "crates",
    delivery_date := .str "2024 01 01", current_boat := some 1 }

/-- C2 failing-input store: boat 1 still holds load 2. -/
def c2store : Store :=
  { boats := fun k => if k = 1 then some c2boat else none,
    loads := fun k => if k = 2 then some c2load else none,
    nextBoatId := 3 }

/-- Boat of the C3 witness store. -/
def c3boat : BoatData :=
  { name := .str "Gamma", type := .str "Ketch", length := .num 28,
    public := .bool true, owner := .str "u1", loads := [] }

/-- Load of the C3 witness store: already assigned to boat 1. -/
def c3load : LoadData :=
  { weight := .num 50, content := .str "rope",
    delivery_date := .str "2024 02 02", current_boat := some 1 }

/-- C3 witness store. -/
def c3store : Store :=
  { boats := fun k => if k = 1 then some c3boat else none,
    loads := fun k => if k = 2 then some c3load else none,
    nextBoatId := 2 }

/-- Boat of the C4 witness store: carries load 2. -/
def c4boat : BoatData :=
  { name := .str "Delta", type := .str "Sloop", length := .num 32,
    public := .bool true, owner := .str "u1",
    loads := [{ id := 2, self := "http://h/loads/2" }] }

/-- Load of the C4 witness store: assigned to boat 1. -/
def c4load : LoadData :=
  { weight := .num 75, content := .str "nets",
    delivery_date := .str "2024 03 03", current_boat := some 1 }

/-- C4 witness store. -/
def c4store : Store :=
  { boats := fun k => if k = 1 then some c4boat else none,
    loads := fun k => if k = 2 then some c4load else none,
    nextBoatId := 2 }

/-- Pre-existing boat of the C5 store, already named Orca. -/
def c5boat : BoatData :=
  { name := .str "Orca", type := .str "Ketch", length := .num 30,
    public := .bool true, owner := .str "u1", loads := [] }

/-- C5 failing-input store: one boat already named Orca. -/
def c5store : Store :=
  { boats := fun k => if k = 1 then some c5boat else none,
    loads := fun _ => none, nextBoatId := 2 }

/-- C5 request body: a second boat with the duplicate name Orca. -/
def c5body : BoatBody :=
  { name := .str "Orca", type := .str "Sloop", length := .num 40,
    public := .bool true, owner := .str "u2" }

/-- Existing load of the C6 store. -/
def c6load : LoadData :=
  { weight := .num 1, content := .str "old",
    delivery_date := .str "2023 12 12", current_boat := none }

/-- C6 failing-input store: load 1 exists. -/
def c6store : Store :=
  { boats := fun _ => none,
    loads := fun k => if k = 1 then some c6load else none,
    nextBoatId := 1 }

/-- C6 request body: a fully valid replacement for load 1. -/
def c6body : LoadBody :=
  { weight := .str "100", content := .str "crates",
    delivery_date := .str "2024 01 01", current_boat := .str "7" }

/-- C9 witness body: PATCH body carrying only a truthy type, no id, no
name. -/
def c9body : BoatBody := { type := .str "Sloop" }

/-- C9 witness store (its contents are never reached). -/
def c9store : Store :=
  { boats := fun _ => none, loads := fun _ => none, nextBoatId := 1 }

/-- C10 witness body: all required fields present but `public` is the
boolean false. -/
def c10body : BoatBody :=
  { name := .str "Orca", type := .str "Sloop", length := .num 40,
    public := .bool false, owner := .str "u1" }

/-- C10 witness store. -/
def c10store : Store :=
  { boats := fun _ => none, loads := fun _ => none, nextBoatId := 1 }

/-! ## Store update lemmas -/

@[simp] theorem putBoat_boats (s : Store) (k : Nat) (v : BoatData) (i : Nat) :
    (s.putBoat k v).boats i = if i = k then some v else s.boats i := rfl

@[simp] theorem putBoat_loads (s : Store) (k : Nat) (v : BoatData) :
    (s.putBoat k v).loads = s.loads := rfl

@[simp] theorem putLoad_loads (s : Store) (k : Nat) (v : LoadData) (i : Nat) :
    (s.putLoad k v).loads i = if i = k then some v else s.loads i := rfl

@[simp] theorem putLoad_boats (s : Store) (k : Nat) (v : LoadData) :
    (s.putLoad k v).boats = s.boats := rfl

@[simp] theorem delBoat_boats (s : Store) (k i : Nat) :
    (s.delBoat k).boats i = if i = k then none else s.boats i := rfl

@[simp] theorem delBoat_loads (s : Store) (k : Nat) :
    (s.delBoat k).loads = s.loads := rfl

@[simp] theorem truthy_undefined : JsVal.undefined.truthy = false := rfl

@[simp] theorem truthy_bool (b : Bool) : (JsVal.bool b).truthy = b := rfl

/-! ## Claim theorems -/

/-- C7: for every collection-listing envelope — boats or loads — and every
requested limit, offset and returned item list, the `count` field equals the
constant 5. -/
theorem C7_count_is_constant_five (items : List JsVal) (protocol host seg : String)
    (limit offset : JsVal) :
    (get_all_loads_envelope items protocol host seg limit offset).count = 5
    ∧ (get_all_boats_envelope items protocol host seg limit offset).count = 5 :=
  ⟨rfl, rfl⟩

/-- C8 counterexample: with `limit=5&offset=5` both present, the next link
carries `offset=55` — the JavaScript `+` on the two query strings
concatenates them — so the offset value is not the arithmetic sum (which
would be 10). -/
theorem C8_counterexample :
    (get_all_loads_envelope [] "http" "h" "loads" (.str "5") (.str "5")).next
      = "http://h/loads/?limit=5&offset=55"
    ∧ jsAdd (.str "5") (.str "5") ≠ .num 10
    ∧ jsAdd (.str "5") (.str "5") ≠ .str "10" :=
  ⟨rfl, by decide, by decide⟩

/-- C8 (amended): the next link's offset value is produced by the JavaScript
`+` operator on the raw `limit` and `offset` query values: string
concatenation when both are present, text containing `undefined` when
exactly one is absent, and `NaN` text only when both are absent. -/
theorem C8_next_link_uses_js_plus (items : List JsVal) (protocol host seg : String)
    (limit offset : JsVal) (a b : String) :
    (get_all_loads_envelope items protocol host seg limit offset).next
      = protocol ++ "://" ++ host ++ "/" ++ seg ++ "/?limit=5&offset="
        ++ (jsAdd limit offset).toStr
    ∧ (get_all_boats_envelope items protocol host seg limit offset).next
      = protocol ++ "://" ++ host ++ "/" ++ seg ++ "/?limit=5&offset="
        ++ (jsAdd limit offset).toStr
    ∧ jsAdd (.str a) (.str b) = .str (a ++ b)
    ∧ jsAdd (.str a) .undefined = .str (a ++ "undefined")
    ∧ jsAdd .undefined (.str b) = .str ("undefined" ++ b)
    ∧ jsAdd .undefined .undefined = .nan
    ∧ JsVal.toStr .nan = "NaN" :=
  ⟨rfl, rfl, rfl, rfl, rfl, rfl, rfl⟩

/-- C2: deleting boat 1 — owner matching, no Content-Type header — answers
204 and removes the boat record, but load 2, which boat 1 still listed,
keeps `current_boat = 1` instead of having it cleared: the cleanup loop
passes the boat's own id to the one-parameter `remove_load_from_boat`. -/
theorem C2_delete_boat_leaves_backref :
    (delete_boat_ctrl none (.str "u1") 1 c2store).1 = 204
    ∧ (delete_boat_ctrl none (.str "u1") 1 c2store).2.boats 1 = none
    ∧ ((delete_boat_ctrl none (.str "u1") 1 c2store).2.loads 2).map
        LoadData.current_boat = some (some 1) := by
  refine ⟨rfl, ?_, ?_⟩ <;> decide

/-- C5: the boat model `post_boat` always returns the fresh key — it never
scans for an existing boat with the same name and never returns false — so
creating a boat named Orca while boat 1 is already named Orca answers 201
and stores a second Orca record. -/
theorem C5_duplicate_name_not_rejected :
    (∀ name ty len pub owner s,
      (post_boat name ty len pub owner s).2 = some s.nextBoatId)
    ∧ Except.map (fun r : Nat × Store =>
        (r.1, (r.2.boats 1).map BoatData.name, (r.2.boats 2).map BoatData.name))
        (create_boat_ctrl true true (some "application/json") c5body c5store)
      = .ok (201, some (.str "Orca"), some (.str "Orca")) :=
  ⟨fun _ _ _ _ _ _ => rfl, by decide⟩

/-- C6: the load model `put_load` throws a ReferenceError on every call (its
key construction reads the `load` constant inside that constant's own
initializer), so PUT /loads/1 with a fully valid body over an existing load
1 propagates the exception instead of answering 303. -/
theorem C6_put_load_always_throws :
    (∀ id weight content delivery_date boat_id s,
      put_load_model id weight content delivery_date boat_id s
        = .error .referenceError)
    ∧ put_load_ctrl true (some "application/json") 1 c6body c6store
        = .error .referenceError :=
  ⟨fun _ _ _ _ _ _ => rfl, rfl⟩

/-- C1 counterexample: load 10 starts assigned to boat 2; assigning it to
boat 1 succeeds with 204 and appends the entry to boat 1's loads, yet the
load's `current_boat` still reads boat 2, not boat 1 — the bidirectional
invariant fails in exactly the already-assigned-elsewhere starting state the
claim quantifies over. -/
theorem C1_counterexample :
    Except.map (fun r : Nat × Store =>
        (r.1, (r.2.loads 10).map LoadData.current_boat,
         (r.2.boats 1).map (fun b => b.loads.map LoadEntry.id)))
      (load_boat_ctrl 1 10 "http" "h" c1store)
      = .ok (204, some (some 2), some [10])
    ∧ (some (some 2) : Option (Option Nat)) ≠ some (some 1) := by
  refine ⟨?_, ?_⟩ <;> decide

/-- C1 (amended): when the load is unassigned (`current_boat` null) at the
start, a successful assign (204) establishes the bidirectional invariant:
the load's `current_boat` becomes the boat's id and the entry is appended to
the boat's loads list. -/
theorem C1_assign_invariant_when_unassigned (boatID loadID : Nat)
    (protocol host : String) (s : Store) (bt : BoatData) (ld : LoadData)
    (hb : s.boats boatID = some bt) (hl : s.loads loadID = some ld)
    (hun : ld.current_boat = none) :
    Except.map (fun r : Nat × Store =>
        (r.1, (r.2.loads loadID).map LoadData.current_boat,
         (r.2.boats boatID).map (fun b => b.loads.map LoadEntry.id)))
      (load_boat_ctrl boatID loadID protocol host s)
      = .ok (204, some (some boatID),
             some (bt.loads.map LoadEntry.id ++ [loadID])) := by
  simp [load_boat_ctrl, boat_load_boat, add_load_to_boat, hb, hl, hun,
    Except.map]

/-- C1 witness: assigning the unassigned load 10 to boat 1 answers 204,
sets `current_boat = 1` and lists 10 on boat 1. -/
theorem C1_witness :
    Except.map (fun r : Nat × Store =>
        (r.1, (r.2.loads 10).map LoadData.current_boat,
         (r.2.boats 1).map (fun b => b.loads.map LoadEntry.id)))
      (load_boat_ctrl 1 10 "http" "h" c1wstore)
      = .ok (204, some (some 1), some [10]) :=
  C1_assign_invariant_when_unassigned 1 10 "http" "h" c1wstore c1wboat c1wload
    rfl rfl rfl

/-- C3: with both the boat and the load existing, the assign controller
answers 403 — leaving the store untouched — exactly when the load's
`current_boat` is non-null and equal to this boat's id; a load assigned to a
different boat id therefore passes the guard. -/
theorem C3_assign_conflict_iff (boatID loadID : Nat) (protocol host : String)
    (s : Store) (bt : BoatData) (ld : LoadData)
    (hb : s.boats boatID = some bt) (hl : s.loads loadID = some ld) :
    load_boat_ctrl boatID loadID protocol host s = .ok (403, s)
      ↔ (ld.current_boat ≠ none ∧ ld.current_boat = some boatID) := by
  rcases hcb : ld.current_boat with _ | b
  · simp [load_boat_ctrl, boat_load_boat, add_load_to_boat, hb, hl, hcb]
  · by_cases hbeq : b = boatID
    · subst hbeq
      simp [load_boat_ctrl, hb, hl, hcb]
    · simp [load_boat_ctrl, boat_load_boat, add_load_to_boat, hb, hl, hcb,
        hbeq]

/-- C3 witness: load 2 is already assigned to boat 1, so assigning it to
boat 1 again answers 403 with the store unchanged. -/
theorem C3_witness :
    load_boat_ctrl 1 2 "http" "h" c3store = .ok (403, c3store) :=
  (C3_assign_conflict_iff 1 2 "http" "h" c3store c3boat c3load rfl rfl).mpr
    (by decide)

/-- C4: with the boat existing, unassign answers 204 exactly when the load
exists and its `current_boat` equals this boat's id, in which case the
load's back-reference becomes null and the boat's loads list is filtered by
id; when the load is missing or assigned elsewhere (including null) the
controller answers 404 with the store unchanged, so a second unassign right
after a successful one answers 404, not a repeated 204. -/
theorem C4_unassign_requires_current_boat (boatID loadID : Nat) (s : Store)
    (bt : BoatData) (hb : s.boats boatID = some bt) :
    (∀ ld, s.loads loadID = some ld → ld.current_boat = some boatID →
      unload_boat_ctrl boatID loadID s = (204, boat_unload_boat boatID loadID s)
      ∧ ((boat_unload_boat boatID loadID s).loads loadID).map
          LoadData.current_boat = some none
      ∧ (boat_unload_boat boatID loadID s).boats boatID
          = some { bt with loads := bt.loads.filter (fun e => e.id != loadID) }
      ∧ (unload_boat_ctrl boatID loadID (boat_unload_boat boatID loadID s)).1
          = 404)
    ∧ (∀ ld, s.loads loadID = some ld → ld.current_boat ≠ some boatID →
        unload_boat_ctrl boatID loadID s = (404, s))
    ∧ (s.loads loadID = none → unload_boat_ctrl boatID loadID s = (404, s)) := by
  refine ⟨fun ld hl hcb => ⟨?_, ?_, ?_, ?_⟩, fun ld hl hcb => ?_, fun hl => ?_⟩
  · simp [unload_boat_ctrl, hb, hl, hcb]
  · simp [boat_unload_boat, remove_load_from_boat, hl, hb]
  · simp [boat_unload_boat, remove_load_from_boat, hl, hb]
  · simp [unload_boat_ctrl, boat_unload_boat, remove_load_from_boat, hl, hb]
  · simp [unload_boat_ctrl, hb, hl, hcb]
  · simp [unload_boat_ctrl, hb, hl]

/-- C4 witness: unassigning load 2 from boat 1 answers 204 and nulls the
back-reference; repeating the call answers 404. -/
theorem C4_witness :
    unload_boat_ctrl 1 2 c4store = (204, boat_unload_boat 1 2 c4store)
    ∧ ((boat_unload_boat 1 2 c4store).loads 2).map LoadData.current_boat
        = some none
    ∧ (unload_boat_ctrl 1 2 (boat_unload_boat 1 2 c4store)).1 = 404 :=
  let h := (C4_unassign_requires_current_boat 1 2 c4store c4boat rfl).1
    c4load rfl rfl
  ⟨h.1, h.2.1, h.2.2.2⟩

/-- C9 counterexample: the PATCH body `{id: 1, type: "Sloop"}` contains
`type` and omits `name`, yet `validate_request` returns the boolean false
(the `req.body.id` guard fires first) instead of throwing, refuting the
claim's universal quantification. -/
theorem C9_counterexample :
    boat_validate_request .PATCH { id := .num 1, type := .str "Sloop" }
      = .ok (.bool false)
    ∧ (Except.ok (.bool false) : Except JsErr JsVal) ≠ .error .typeError := by
  refine ⟨?_, ?_⟩ <;> decide

/-- C9 (amended): for every PATCH body with no `id` (more precisely a falsy
one) and no `name`, in which at least one of `type`, `length`, `owner`,
`public` is present with a truthy value, `validate_request` throws a
TypeError (reading `.length` of undefined) instead of returning a boolean,
and the exception is reachable at PATCH /boats/:boat_id, where `patch_boat`
propagates it. -/
theorem C9_patch_validator_throws (body : BoatBody)
    (hid : body.id.truthy = false) (hname : body.name = .undefined)
    (hsome : body.type.truthy = true ∨ body.length.truthy = true
      ∨ body.owner.truthy = true ∨ body.public.truthy = true) :
    boat_validate_request .PATCH body = .error .typeError
    ∧ ∀ userid boatId s,
        patch_boat_ctrl true (some "application/json") userid boatId body s
          = .error .typeError := by
  have h1 : boat_validate_request .PATCH body = .error .typeError := by
    rcases hsome with h | h | h | h <;>
      simp [boat_validate_request, hid, hname, h, jsLength]
  exact ⟨h1, fun userid boatId s => by simp [patch_boat_ctrl, h1]⟩

/-- C9 witness: the body `{type: "Sloop"}` makes `validate_request` throw
under PATCH, and PATCH /boats/1 with that body propagates the TypeError. -/
theorem C9_witness :
    boat_validate_request .PATCH c9body = .error .typeError
    ∧ patch_boat_ctrl true (some "application/json") (.str "u1") 1 c9body
        c9store = .error .typeError :=
  let h := C9_patch_validator_throws c9body rfl rfl (Or.inl rfl)
  ⟨h.1, h.2 (.str "u1") 1 c9store⟩

/-- C10: for every boat body whose `public` is falsy (boolean false, 0, the
empty string, null) — and likewise any other required field falsy, since
presence is tested by truthiness — POST /boats and PUT /boats/:boat_id
answer 400 once the requests reach validation, and whatever the
authentication and content-negotiation outcome these two handlers return the
store unchanged, so no boat is ever created or fully replaced with a falsy
`public` field. -/
theorem C10_falsy_public_rejected (body : BoatBody)
    (hpub : body.public.truthy = false) :
    (∀ s, create_boat_ctrl true true (some "application/json") body s
        = .ok (400, s))
    ∧ (∀ userid boatId s,
        put_boat_ctrl true (some "application/json") userid boatId body s
          = .ok (400, s))
    ∧ (∀ isValid acceptsJson contentType s,
        Except.map Prod.snd
          (create_boat_ctrl isValid acceptsJson contentType body s) = .ok s)
    ∧ (∀ acceptsJson contentType userid boatId s,
        Except.map Prod.snd
          (put_boat_ctrl acceptsJson contentType userid boatId body s)
          = .ok s) := by
  have hpost : boat_validate_request .POST body = .ok (.bool false) := by
    simp [boat_validate_request, hpub]
  have hput : boat_validate_request .PUT body = .ok (.bool false) := by
    simp [boat_validate_request, hpub]
  refine ⟨fun s => ?_, fun userid boatId s => ?_, fun iv aj ct s => ?_,
    fun aj ct userid boatId s => ?_⟩
  · simp [create_boat_ctrl, hpost, JsVal.truthy]
  · simp [put_boat_ctrl, hput, JsVal.truthy]
  · cases iv <;> cases aj <;>
      by_cases hct : ct = some "application/json" <;>
        simp [create_boat_ctrl, hpost, hct, JsVal.truthy, Except.map]
  · cases aj <;>
      by_cases hct : ct = some "application/json" <;>
        simp [put_boat_ctrl, hput, hct, JsVal.truthy, Except.map]

/-- C10 witness: a complete body with `public = false` is rejected with 400
by both POST /boats and PUT /boats/1, leaving the store unchanged. -/
theorem C10_witness :
    create_boat_ctrl true true (some "application/json") c10body c10store
      = .ok (400, c10store)
    ∧ put_boat_ctrl true (some "application/json") (.str "u1") 1 c10body
        c10store = .ok (400, c10store) :=
  let h := C10_falsy_public_rejected c10body rfl
  ⟨h.1 c10store, h.2.1 (.str "u1") 1 c10store⟩

end Marina
